import Mathlib

/-!
Shallow embedding of the DaktariHub backend's appointment scheduling core:
the `AppointmentController` operations (`createAppointment`,
`updateAppointmentStatus`, `getAppointmentById`, `getPatientAppointments`,
`getDoctorAppointments`), the `Appointment` Mongoose model with its
pre-save hook (sequential id minting and fee-total derivation) and schema
validators, and the surrounding store state.

Modelling conventions:
* Mongo object ids are `Nat` (field `oid` stands for Mongo's `_id`);
  equality of `_id.toString()` values is `Nat` equality.
* Instants (`Date` values) are `Int` milliseconds since the epoch.
  `new Date(date + "T" + time)` is `combineInstant`: the request date's
  midnight instant plus the parsed `HH:MM` offset, `none` standing for an
  Invalid Date (which Mongoose's date cast turns into a 400 response
  before any write happens).
* JS falsiness of a possibly-absent string (absent or `""`) is
  `jsTruthyStr`; JS string trimming is `trimStr` on the character list.
* The document store is a `DB` record of lists; a Mongo insert appends,
  an update-by-id save replaces in place, and the Mongo `sort()` of the
  listing queries is modelled by a stable sort (`List.insertionSort`) on
  the query's sort key — MongoDB does not specify the relative order of
  documents with equal sort keys, so any stable sort is a faithful model.
* `document.save()` follows Mongoose's middleware order: schema
  validation runs before user `pre('save')` hooks, so the
  appointment-id-minting hook only runs on documents that already
  validate — which a freshly constructed appointment (its required
  `appointmentId` still unset) never does.
* Controller handlers are total functions returning `Except ErrResponse`,
  the error carrying the HTTP status code and message the handler sends.
-/

namespace DaktariHub

/-- JS truthiness for a possibly-absent string: `undefined` and `""` are falsy. -/
def jsTruthyStr : Option String → Bool
  | none => false
  | some s => s ≠ ""

/-- JS `x || 0` on a number (the pre-save hook's `additionalCharges || 0`). -/
def jsOrZero (x : Int) : Int := if x = 0 then 0 else x

/-- JS `s.trim()` (and the Mongoose `trim: true` setter), written on the
character list so that it evaluates by kernel reduction. -/
def trimStr (s : String) : String :=
  ⟨((s.data.dropWhile Char.isWhitespace).reverse.dropWhile Char.isWhitespace).reverse⟩

/-- Decimal digit characters of `n`, most significant first, with
structural fuel (`fuel > n` suffices): the JS `String(n)` conversion used
when minting appointment ids. -/
def natDigitsGo : Nat → Nat → List Char
  | 0, _ => []
  | fuel + 1, n =>
    if n < 10 then [Nat.digitChar n]
    else natDigitsGo fuel (n / 10) ++ [Nat.digitChar (n % 10)]

/-- Decimal digit characters of `n`, most significant first: JS `String(n)`. -/
def natDigits (n : Nat) : List Char := natDigitsGo (n + 1) n

/-- JS `s.padStart(6, '0')` on the digit list. -/
def padStart6 (ds : List Char) : List Char :=
  List.replicate (6 - ds.length) '0' ++ ds

/-- The minted sequential appointment id: `` `APT${String(n).padStart(6, '0')}` ``. -/
def mint (n : Nat) : String :=
  ⟨'A' :: 'P' :: 'T' :: padStart6 (natDigits n)⟩

/-- Decimal value accumulated over a digit list (left fold), used to read
a minted id back; inverse to `natDigits`. -/
def parseAcc (acc : Nat) (ds : List Char) : Nat :=
  ds.foldl (fun a c => a * 10 + (c.toNat - 48)) acc

/-- Decimal value of a digit list. -/
def parseDigits (ds : List Char) : Nat := parseAcc 0 ds

/-- The sequence index encoded by a minted appointment id (drop `APT`,
read the digits back). -/
def recoverIdx (s : String) : Nat := parseDigits (s.data.drop 3)

/-- The schema regex `^([0-1]?[0-9]|2[0-3]):[0-5][0-9]$` for `HH:MM` times. -/
def isValidTimeHHMM (s : String) : Bool :=
  match s.data with
  | [h, ':', m1, m2] =>
      h.isDigit && ('0' ≤ m1 && m1 ≤ '5') && m2.isDigit
  | [h1, h2, ':', m1, m2] =>
      (((h1 = '0' || h1 = '1') && h2.isDigit) ||
        (h1 = '2' && ('0' ≤ h2 && h2 ≤ '3'))) &&
      ('0' ≤ m1 && m1 ≤ '5') && m2.isDigit
  | _ => false

/-- Numeric value of a decimal digit character. -/
def charVal (c : Char) : Int := (c.toNat : Int) - 48

/-- Minutes past midnight encoded by a (valid) `HH:MM` string. -/
def timeToMinutes (s : String) : Int :=
  match s.data with
  | [h, _, m1, m2] => charVal h * 60 + charVal m1 * 10 + charVal m2
  | [h1, h2, _, m1, m2] =>
      (charVal h1 * 10 + charVal h2) * 60 + charVal m1 * 10 + charVal m2
  | _ => 0

/-- `new Date(date + "T" + time)`: the date's midnight instant plus the time
offset, or `none` (Invalid Date) when the time fails the `HH:MM` shape. -/
def combineInstant (dateMs : Int) (time : String) : Option Int :=
  if isValidTimeHHMM time then some (dateMs + 60000 * timeToMinutes time)
  else none

/-- Fee breakdown subdocument of an appointment. -/
structure Fees where
  consultationFee : Int
  additionalCharges : Int
  totalAmount : Int
deriving DecidableEq, Repr

/-- A stored appointment document (the fields the scheduling core touches). -/
structure Appointment where
  oid : Nat
  appointmentId : Option String
  patient : Nat
  doctor : Nat
  appointmentDate : Int
  appointmentTime : String
  duration : Int
  status : String
  type : String
  reasonForVisit : String
  symptoms : List String
  notes : Option String
  fees : Fees
deriving DecidableEq, Repr

/-- A stored doctor profile (only the fields the scheduling core reads). -/
structure Doctor where
  oid : Nat
  consultationFee : Option Int
deriving DecidableEq, Repr

/-- A stored patient profile (only existence matters to the scheduling core). -/
structure Patient where
  oid : Nat
deriving DecidableEq, Repr

/-- The document store: doctors, patients, appointments, and the next fresh
Mongo object id handed to an inserted document. -/
structure DB where
  doctors : List Doctor
  patients : List Patient
  appointments : List Appointment
  nextOid : Nat
deriving DecidableEq, Repr

/-- A controller error response: HTTP status code plus message. -/
structure ErrResponse where
  status : Nat
  message : String
deriving DecidableEq, Repr

def findDoctor (db : DB) (id : Nat) : Option Doctor :=
  db.doctors.find? fun d => d.oid = id

def findPatient (db : DB) (id : Nat) : Option Patient :=
  db.patients.find? fun p => p.oid = id

def findAppointment (db : DB) (id : Nat) : Option Appointment :=
  db.appointments.find? fun a => a.oid = id

def statusValues : List String :=
  ["scheduled", "confirmed", "in-progress", "completed", "cancelled", "no-show"]

def typeValues : List String :=
  ["consultation", "follow-up", "emergency", "routine-checkup"]

/-- The Mongoose schema validators of the `Appointment` model: required
fields, the `HH:MM` time regex, duration 15–180, status/type enums,
`reasonForVisit` max length 500 (no minimum), `notes` max length 1000,
non-negative fees. -/
def validateAppointment (a : Appointment) : Bool :=
  a.appointmentId.isSome &&
  isValidTimeHHMM a.appointmentTime &&
  decide (15 ≤ a.duration) && decide (a.duration ≤ 180) &&
  statusValues.contains a.status &&
  typeValues.contains a.type &&
  !(a.reasonForVisit = "") && decide (a.reasonForVisit.length ≤ 500) &&
  (match a.notes with
    | none => true
    | some s => decide (s.length ≤ 1000)) &&
  decide (0 ≤ a.fees.consultationFee) &&
  decide (0 ≤ a.fees.additionalCharges)

/-- The `pre('save')` hook: mint `APT${String(count + 1).padStart(6, '0')}`
when `appointmentId` is falsy, then recompute
`totalAmount = consultationFee + (additionalCharges || 0)`. -/
def preSave (count : Nat) (a : Appointment) : Appointment :=
  let a1 := if jsTruthyStr a.appointmentId then a
            else { a with appointmentId := some (mint (count + 1)) }
  { a1 with
    fees := { a1.fees with
      totalAmount := a1.fees.consultationFee + jsOrZero a1.fees.additionalCharges } }

/-- `document.save()` on a new document.  Mongoose runs its built-in
validation hook before any user `pre('save')` hook (all `validate` hooks
fire before `save` hooks), so the document is validated exactly as
constructed; only when validation passes does the user hook run (minting
the id with `countDocuments` = current store size, re-deriving the fee
total) and the insert happen.  Because `appointmentId` is `required` yet
only minted inside the user hook, a freshly constructed appointment never
passes this validation, so no insert is reachable.  The failure surfaces
as a 400 response via the global error handler's Mongoose
`ValidationError` mapping. -/
def saveNew (db : DB) (a : Appointment) : Except ErrResponse (DB × Appointment) :=
  if validateAppointment a then
    .ok ({ db with
            appointments := db.appointments ++ [preSave db.appointments.length a],
            nextOid := db.nextOid + 1 },
         preSave db.appointments.length a)
  else .error ⟨400, "Validation failed"⟩

/-- `document.save()` on a fetched document: validation first (on the
mutated document, before user hooks), then the pre-save hook, then
in-place replacement of the document with that `_id`.  A well-formed
stored document keeps its truthy `appointmentId`, so here validation
passes and the update goes through. -/
def saveExisting (db : DB) (a : Appointment) : Except ErrResponse (DB × Appointment) :=
  if validateAppointment a then
    .ok ({ db with appointments := db.appointments.map fun b =>
            if b.oid = (preSave db.appointments.length a).oid
            then preSave db.appointments.length a else b },
         preSave db.appointments.length a)
  else .error ⟨400, "Validation failed"⟩

/-- The booking request body, after the destructuring defaults
`type = 'consultation'`, `duration = 30` have been applied.
`appointmentDate` is the midnight instant of the (ISO) date string, `none`
when the field is absent. -/
structure BookRequest where
  doctorId : Option Nat
  appointmentDate : Option Int
  appointmentTime : String
  reasonForVisit : String
  symptoms : Option (List String)
  type : String
  duration : Int
deriving DecidableEq, Repr

/-- The ±30-minute same-doctor conflict predicate of `createAppointment`:
`appointmentDate` within `[t - 30 min, t + 30 min]` (both ends inclusive:
`$gte`/`$lte`) and status `$nin ['cancelled', 'no-show']`. -/
def isConflicting (doctorId : Nat) (t : Int) (a : Appointment) : Bool :=
  decide (a.doctor = doctorId) &&
  decide (t - 1800000 ≤ a.appointmentDate) &&
  decide (a.appointmentDate ≤ t + 1800000) &&
  !(a.status = "cancelled" || a.status = "no-show")

/-- `doctor.consultationFee || 100`: the default consultation fee 100 is
used whenever the stored fee is JS-falsy (absent or `0`). -/
def feeOrDefault : Option Int → Int
  | some f => if f = 0 then 100 else f
  | none => 100

/-- The appointment document `createAppointment` constructs before saving. -/
def builtAppointment (db : DB) (userProfile doctorId : Nat) (t : Int)
    (req : BookRequest) (doctor : Doctor) : Appointment where
  oid := db.nextOid
  appointmentId := none
  patient := userProfile
  doctor := doctorId
  appointmentDate := t
  appointmentTime := req.appointmentTime
  duration := req.duration
  status := "scheduled"
  type := req.type
  reasonForVisit := trimStr req.reasonForVisit
  symptoms := req.symptoms.getD []
  notes := none
  fees := { consultationFee := feeOrDefault doctor.consultationFee
            additionalCharges := 0
            totalAmount := feeOrDefault doctor.consultationFee }

/-- `AppointmentController.createAppointment`: required-field presence
check, doctor and patient resolution, ±30-minute conflict check, then
construction and save of the new appointment (fee
`doctor.consultationFee || 100`, status `'scheduled'`). -/
def createAppointment (db : DB) (userProfile : Nat) (req : BookRequest) :
    Except ErrResponse (DB × Appointment) :=
  match req.doctorId, req.appointmentDate with
  | some doctorId, some dateMs =>
    if req.appointmentTime = "" || req.reasonForVisit = "" then
      .error ⟨400, "All required fields must be provided"⟩
    else
      match findDoctor db doctorId with
      | none => .error ⟨404, "Doctor not found"⟩
      | some doctor =>
        match findPatient db userProfile with
        | none => .error ⟨404, "Patient profile not found"⟩
        | some _ =>
          match combineInstant dateMs req.appointmentTime with
          | none => .error ⟨400, "Invalid appointmentDate"⟩
          | some t =>
            match db.appointments.find? (isConflicting doctorId t) with
            | some _ => .error ⟨409, "Doctor is not available at this time"⟩
            | none => saveNew db (builtAppointment db userProfile doctorId t req doctor)
  | _, _ => .error ⟨400, "All required fields must be provided"⟩

/-- The status values `updateAppointmentStatus` accepts (the stored state
`'scheduled'` is deliberately not among them). -/
def allowedUpdateStatuses : List String :=
  ["confirmed", "in-progress", "completed", "cancelled", "no-show"]

/-- The in-memory mutation `updateAppointmentStatus` applies before saving:
overwrite `status`, and overwrite `notes` only when the supplied notes are
truthy (`if (notes)`). -/
def updatedDoc (appointment : Appointment) (status : String)
    (notes : Option String) : Appointment :=
  if jsTruthyStr notes then { appointment with status := status, notes := notes }
  else { appointment with status := status }

/-- `AppointmentController.updateAppointmentStatus`: target-status
membership check, appointment resolution, ownership check for the
`patient` and `doctor` roles, then status overwrite (and notes overwrite
when the supplied notes are truthy) and save. -/
def updateAppointmentStatus (db : DB) (userRole : String) (userProfile : Nat)
    (appointmentId : Nat) (status : String) (notes : Option String) :
    Except ErrResponse (DB × Appointment) :=
  if !(allowedUpdateStatuses.contains status) then
    .error ⟨400, "Invalid appointment status"⟩
  else
    match findAppointment db appointmentId with
    | none => .error ⟨404, "Appointment not found"⟩
    | some appointment =>
      if userRole = "patient" && !(appointment.patient == userProfile) then
        .error ⟨403, "Not authorized to update this appointment"⟩
      else if userRole = "doctor" && !(appointment.doctor == userProfile) then
        .error ⟨403, "Not authorized to update this appointment"⟩
      else
        saveExisting db (updatedDoc appointment status notes)

/-- `AppointmentController.getAppointmentById`: appointment resolution then
the same ownership check as the status update; read-only. -/
def getAppointmentById (db : DB) (userRole : String) (userProfile : Nat)
    (appointmentId : Nat) : Except ErrResponse Appointment :=
  match findAppointment db appointmentId with
  | none => .error ⟨404, "Appointment not found"⟩
  | some appointment =>
    if userRole = "patient" && !(appointment.patient == userProfile) then
      .error ⟨403, "Not authorized to view this appointment"⟩
    else if userRole = "doctor" && !(appointment.doctor == userProfile) then
      .error ⟨403, "Not authorized to view this appointment"⟩
    else .ok appointment

/-- Pagination metadata of a listing response:
`{ current: page, pages: Math.ceil(total / limit), total }`. -/
structure Pagination where
  current : Nat
  pages : Nat
  total : Nat
deriving DecidableEq, Repr

/-- The query string of a listing request, after the defaults
`page = 1`, `limit = 10` have been applied.  `date`, when supplied, is the
midnight instant of the requested day. -/
structure ListQuery where
  status : Option String
  date : Option Int
  page : Nat
  limit : Nat
deriving DecidableEq, Repr

/-- `Math.ceil(total / limit)` on naturals (exact for `limit ≥ 1`). -/
def ceilDiv (total limit : Nat) : Nat := (total + limit - 1) / limit

/-- The Mongo filter of `getPatientAppointments`: owner equality plus
optional status equality.  (The handler reads no date parameter from the
query string.) -/
def patientFilter (patientId : Nat) (status : Option String) (a : Appointment) : Bool :=
  decide (a.patient = patientId) &&
  (match status with
    | some s => decide (a.status = s)
    | none => true)

/-- The sort key of `getPatientAppointments`: `{ appointmentDate: -1 }`
(instant, descending). -/
def patientSortR (a b : Appointment) : Prop :=
  b.appointmentDate ≤ a.appointmentDate

instance : DecidableRel patientSortR := fun a b =>
  inferInstanceAs (Decidable (b.appointmentDate ≤ a.appointmentDate))

instance : IsTotal Appointment patientSortR :=
  ⟨fun a b => (Int.le_total b.appointmentDate a.appointmentDate).imp id id⟩

instance : IsTrans Appointment patientSortR :=
  ⟨fun _ _ _ h1 h2 => le_trans h2 h1⟩

/-- `AppointmentController.getPatientAppointments`: filter by owner and
optional status, sort `{ appointmentDate: -1 }` (descending), then
`skip((page - 1) * limit).limit(limit)`; pagination from
`countDocuments(filter)`. -/
def getPatientAppointments (db : DB) (patientId : Nat) (q : ListQuery) :
    List Appointment × Pagination :=
  let matching := db.appointments.filter (patientFilter patientId q.status)
  let sorted := matching.insertionSort patientSortR
  let paged := (sorted.drop ((q.page - 1) * q.limit)).take q.limit
  (paged, { current := q.page, pages := ceilDiv matching.length q.limit,
            total := matching.length })

/-- The Mongo filter of `getDoctorAppointments`: owner equality, optional
status equality, and optional same-day range
`[startOfDay, startOfDay + 23:59:59.999]`. -/
def doctorFilter (doctorId : Nat) (status : Option String) (date : Option Int)
    (a : Appointment) : Bool :=
  decide (a.doctor = doctorId) &&
  (match status with
    | some s => decide (a.status = s)
    | none => true) &&
  (match date with
    | some d => decide (d ≤ a.appointmentDate) && decide (a.appointmentDate ≤ d + 86399999)
    | none => true)

/-- The sort key of `getDoctorAppointments`:
`{ appointmentDate: 1, appointmentTime: 1 }` (lexicographic, ascending). -/
def doctorSortR (a b : Appointment) : Prop :=
  a.appointmentDate < b.appointmentDate ∨
    (a.appointmentDate = b.appointmentDate ∧ a.appointmentTime ≤ b.appointmentTime)

instance : DecidableRel doctorSortR := fun a b =>
  inferInstanceAs (Decidable (a.appointmentDate < b.appointmentDate ∨
    (a.appointmentDate = b.appointmentDate ∧ a.appointmentTime ≤ b.appointmentTime)))

instance : IsTotal Appointment doctorSortR where
  total a b := by
    rcases lt_trichotomy a.appointmentDate b.appointmentDate with h | h | h
    · exact Or.inl (Or.inl h)
    · rcases le_total a.appointmentTime b.appointmentTime with ht | ht
      · exact Or.inl (Or.inr ⟨h, ht⟩)
      · exact Or.inr (Or.inr ⟨h.symm, ht⟩)
    · exact Or.inr (Or.inl h)

instance : IsTrans Appointment doctorSortR where
  trans a b c h1 h2 := by
    rcases h1 with h1 | ⟨h1e, h1t⟩ <;> rcases h2 with h2 | ⟨h2e, h2t⟩
    · exact Or.inl (lt_trans h1 h2)
    · exact Or.inl (h2e ▸ h1)
    · exact Or.inl (h1e ▸ h2)
    · exact Or.inr ⟨h1e.trans h2e, le_trans h1t h2t⟩

/-- `AppointmentController.getDoctorAppointments`: filter by owner,
optional status and optional day, sort ascending by instant then time
string, then `skip((page - 1) * limit).limit(limit)`; pagination from
`countDocuments(filter)`. -/
def getDoctorAppointments (db : DB) (doctorId : Nat) (q : ListQuery) :
    List Appointment × Pagination :=
  let matching := db.appointments.filter (doctorFilter doctorId q.status q.date)
  let sorted := matching.insertionSort doctorSortR
  let paged := (sorted.drop ((q.page - 1) * q.limit)).take q.limit
  (paged, { current := q.page, pages := ceilDiv matching.length q.limit,
            total := matching.length })

/-- One call to the status-update operation, for reasoning about
sequences of transitions. -/
structure UpdateOp where
  userRole : String
  userProfile : Nat
  appointmentId : Nat
  status : String
  notes : Option String
deriving DecidableEq, Repr

/-- Run one status update against the store, keeping the store unchanged
when the handler answers with an error. -/
def applyUpdate (db : DB) (op : UpdateOp) : DB :=
  match updateAppointmentStatus db op.userRole op.userProfile
      op.appointmentId op.status op.notes with
  | .ok (db1, _) => db1
  | .error _ => db

/-- Run a sequence of status updates against the store. -/
def applyUpdates (db : DB) (ops : List UpdateOp) : DB :=
  ops.foldl applyUpdate db

/-! ### Concrete fixtures used by witnesses and counterexamples -/

/-- Fixture: a doctor with a positive consultation fee. -/
def docA : Doctor := ⟨1, some 50⟩

/-- Fixture: a doctor whose stored consultation fee is `0`. -/
def docZero : Doctor := ⟨5, some 0⟩

/-- Fixture: a patient profile. -/
def patA : Patient := ⟨2⟩

/-- Fixture: the store before any booking. -/
def baseDB : DB := ⟨[docA, docZero], [patA], [], 100⟩

/-- Fixture: a booking request for doctor 1 at `time` on the epoch day. -/
def reqAt (time reason : String) : BookRequest :=
  ⟨some 1, some 0, time, reason, none, "consultation", 30⟩

/-- Fixture: a well-formed stored appointment for doctor 1 at 10:00 on
the epoch day (seeded directly into the store: the booking endpoint
itself cannot create appointments, see `saveNew`). -/
def apt1 : Appointment where
  oid := 100
  appointmentId := some "APT000001"
  patient := 2
  doctor := 1
  appointmentDate := 36000000
  appointmentTime := "10:00"
  duration := 30
  status := "scheduled"
  type := "consultation"
  reasonForVisit := "bad headache"
  symptoms := []
  notes := none
  fees := ⟨50, 0, 50⟩

/-- Fixture: the store seeded with `apt1`. -/
def dbWithAppt : DB := ⟨[docA, docZero], [patA], [apt1], 101⟩

/-- Fixture: a booking request naming a doctor id absent from the store. -/
def reqDoc77 : BookRequest :=
  ⟨some 77, some 0, "10:00", "bad headache", none, "consultation", 30⟩

/-- Fixture: a booking request with the doctor id field absent. -/
def reqNoDoctor : BookRequest :=
  ⟨none, some 0, "10:00", "bad headache", none, "consultation", 30⟩

/-- Fixture: `apt1` after its status was updated to `'confirmed'`. -/
def apt1Confirmed : Appointment := { apt1 with status := "confirmed" }

/-- Fixture: the store after that update. -/
def dbWithApptConfirmed : DB := { dbWithAppt with appointments := [apt1Confirmed] }

/-- Fixture: `apt1` with status `'cancelled'` (a terminal state). -/
def apt1Cancelled : Appointment := { apt1 with status := "cancelled" }

/-- Fixture: the store holding the cancelled appointment. -/
def dbCancelled : DB := { dbWithAppt with appointments := [apt1Cancelled] }

/-- Fixture: `apt1` carrying stored notes. -/
def apt1Noted : Appointment := { apt1 with notes := some "old note" }

/-- Fixture: the store holding the noted appointment. -/
def dbNoted : DB := { dbWithAppt with appointments := [apt1Noted] }

/-- Fixture: the noted appointment after a status update that supplied
fresh notes. -/
def apt1NotedUpd : Appointment :=
  { apt1Noted with status := "confirmed", notes := some "new" }

/-- Fixture: the store after that update. -/
def dbNotedUpd : DB := { dbNoted with appointments := [apt1NotedUpd] }

/-! ### Helper lemmas -/

theorem jsOrZero_eq (x : Int) : jsOrZero x = x := by
  unfold jsOrZero
  split <;> omega

theorem digitChar_val : ∀ n : Nat, n < 10 → (Nat.digitChar n).toNat - 48 = n := by
  decide

theorem parseAcc_append (acc : Nat) (xs ys : List Char) :
    parseAcc acc (xs ++ ys) = parseAcc (parseAcc acc xs) ys := by
  simp [parseAcc, List.foldl_append]

theorem natDigitsGo_parse : ∀ (fuel n acc : Nat), n < fuel →
    parseAcc acc (natDigitsGo fuel n) =
      acc * 10 ^ (natDigitsGo fuel n).length + n := by
  intro fuel
  induction fuel with
  | zero => intro n acc h; omega
  | succ fuel ih =>
    intro n acc h
    rw [natDigitsGo]
    by_cases h10 : n < 10
    · simp only [if_pos h10]
      simp only [parseAcc, List.foldl, List.length_cons, List.length_nil, pow_one,
        digitChar_val n h10]
      ring
    · simp only [if_neg h10]
      rw [parseAcc_append]
      have hlt : n / 10 < fuel := by
        have : n / 10 < n := Nat.div_lt_self (by omega) (by omega)
        omega
      rw [ih (n / 10) acc hlt]
      have hm : n % 10 < 10 := Nat.mod_lt _ (by omega)
      simp only [parseAcc, List.foldl, List.length_append, List.length_cons,
        List.length_nil, digitChar_val _ hm]
      have e : (acc * 10 ^ (natDigitsGo fuel (n / 10)).length + n / 10) * 10 + n % 10 =
          acc * (10 ^ (natDigitsGo fuel (n / 10)).length * 10) + (n / 10 * 10 + n % 10) := by
        ring
      rw [e, pow_succ]
      omega

theorem parseDigits_natDigits (n : Nat) : parseDigits (natDigits n) = n := by
  unfold parseDigits natDigits
  rw [natDigitsGo_parse (n + 1) n 0 (by omega)]
  simp

theorem parseAcc_zero_replicate : ∀ m : Nat, parseAcc 0 (List.replicate m '0') = 0 := by
  intro m
  induction m with
  | zero => rfl
  | succ m ih => simpa [List.replicate_succ, parseAcc] using ih

theorem parseDigits_padStart6 (ds : List Char) :
    parseDigits (padStart6 ds) = parseDigits ds := by
  unfold parseDigits padStart6
  rw [parseAcc_append, parseAcc_zero_replicate]

theorem recoverIdx_mint (n : Nat) : recoverIdx (mint n) = n := by
  show parseDigits ((String.mk ('A' :: 'P' :: 'T' :: padStart6 (natDigits n))).data.drop 3) = n
  rw [show (String.mk ('A' :: 'P' :: 'T' :: padStart6 (natDigits n))).data =
      'A' :: 'P' :: 'T' :: padStart6 (natDigits n) from rfl]
  rw [show ('A' :: 'P' :: 'T' :: padStart6 (natDigits n)).drop 3 =
      padStart6 (natDigits n) from rfl]
  rw [parseDigits_padStart6, parseDigits_natDigits]

theorem mint_injective {a b : Nat} (h : mint a = mint b) : a = b := by
  have h2 := congrArg recoverIdx h
  rwa [recoverIdx_mint, recoverIdx_mint] at h2

theorem preSave_oid (c : Nat) (a : Appointment) : (preSave c a).oid = a.oid := by
  unfold preSave
  split <;> rfl

theorem preSave_patient (c : Nat) (a : Appointment) :
    (preSave c a).patient = a.patient := by
  unfold preSave
  split <;> rfl

theorem preSave_doctor (c : Nat) (a : Appointment) :
    (preSave c a).doctor = a.doctor := by
  unfold preSave
  split <;> rfl

theorem preSave_appointmentDate (c : Nat) (a : Appointment) :
    (preSave c a).appointmentDate = a.appointmentDate := by
  unfold preSave
  split <;> rfl

theorem preSave_appointmentTime (c : Nat) (a : Appointment) :
    (preSave c a).appointmentTime = a.appointmentTime := by
  unfold preSave
  split <;> rfl

theorem preSave_duration (c : Nat) (a : Appointment) :
    (preSave c a).duration = a.duration := by
  unfold preSave
  split <;> rfl

theorem preSave_status (c : Nat) (a : Appointment) :
    (preSave c a).status = a.status := by
  unfold preSave
  split <;> rfl

theorem preSave_type (c : Nat) (a : Appointment) : (preSave c a).type = a.type := by
  unfold preSave
  split <;> rfl

theorem preSave_reasonForVisit (c : Nat) (a : Appointment) :
    (preSave c a).reasonForVisit = a.reasonForVisit := by
  unfold preSave
  split <;> rfl

theorem preSave_symptoms (c : Nat) (a : Appointment) :
    (preSave c a).symptoms = a.symptoms := by
  unfold preSave
  split <;> rfl

theorem preSave_notes (c : Nat) (a : Appointment) :
    (preSave c a).notes = a.notes := by
  unfold preSave
  split <;> rfl

theorem preSave_consultationFee (c : Nat) (a : Appointment) :
    (preSave c a).fees.consultationFee = a.fees.consultationFee := by
  unfold preSave
  split <;> rfl

theorem preSave_additionalCharges (c : Nat) (a : Appointment) :
    (preSave c a).fees.additionalCharges = a.fees.additionalCharges := by
  unfold preSave
  split <;> rfl

theorem preSave_appointmentId (c : Nat) (a : Appointment) :
    (preSave c a).appointmentId =
      if jsTruthyStr a.appointmentId then a.appointmentId
      else some (mint (c + 1)) := by
  unfold preSave
  split <;> simp_all

theorem preSave_totalAmount (c : Nat) (a : Appointment) :
    (preSave c a).fees.totalAmount =
      (preSave c a).fees.consultationFee + (preSave c a).fees.additionalCharges := by
  unfold preSave
  split <;> simp [jsOrZero_eq]

theorem saveNew_ok {db db1 : DB} {a0 a1 : Appointment}
    (h : saveNew db a0 = .ok (db1, a1)) :
    a1 = preSave db.appointments.length a0 ∧ validateAppointment a0 = true ∧
    db1.appointments = db.appointments ++ [a1] ∧ db1.doctors = db.doctors ∧
    db1.patients = db.patients ∧ db1.nextOid = db.nextOid + 1 := by
  unfold saveNew at h
  split at h
  · simp only [Except.ok.injEq, Prod.mk.injEq] at h
    obtain ⟨h1, h2⟩ := h
    subst h2
    subst h1
    simp_all
  · simp at h

theorem saveExisting_ok {db db1 : DB} {a0 a1 : Appointment}
    (h : saveExisting db a0 = .ok (db1, a1)) :
    a1 = preSave db.appointments.length a0 ∧ validateAppointment a0 = true ∧
    db1.appointments =
      (db.appointments.map fun b => if b.oid = a1.oid then a1 else b) ∧
    db1.doctors = db.doctors ∧ db1.patients = db.patients ∧
    db1.nextOid = db.nextOid := by
  unfold saveExisting at h
  split at h
  · simp only [Except.ok.injEq, Prod.mk.injEq] at h
    obtain ⟨h1, h2⟩ := h
    subst h2
    subst h1
    simp_all
  · simp at h

theorem roleGuard_not {role target : String} {x pid : Nat}
    (h : ¬((role = target) && !(x == pid)) = true) : ¬(role = target ∧ x ≠ pid) := by
  intro hc
  apply h
  simp [hc.1, beq_eq_false_iff_ne.mpr hc.2]

theorem createAppointment_ok {db db1 : DB} {uid : Nat} {req : BookRequest}
    {a1 : Appointment} (h : createAppointment db uid req = .ok (db1, a1)) :
    ∃ doctorId dateMs doctor t,
      req.doctorId = some doctorId ∧ req.appointmentDate = some dateMs ∧
      req.appointmentTime ≠ "" ∧ req.reasonForVisit ≠ "" ∧
      findDoctor db doctorId = some doctor ∧ (findPatient db uid).isSome = true ∧
      combineInstant dateMs req.appointmentTime = some t ∧
      db.appointments.find? (isConflicting doctorId t) = none ∧
      saveNew db (builtAppointment db uid doctorId t req doctor) = .ok (db1, a1) := by
  unfold createAppointment at h
  split at h
  case h_2 => simp at h
  case h_1 doctorId dateMs hdid hdate =>
    split at h
    · simp at h
    · rename_i hpresence
      simp only [Bool.or_eq_true, decide_eq_true_eq, not_or] at hpresence
      split at h
      · simp at h
      · rename_i doctor hdoc
        split at h
        · simp at h
        · rename_i pat hpat
          split at h
          · simp at h
          · rename_i t ht
            split at h
            · simp at h
            · rename_i hconf
              exact ⟨doctorId, dateMs, doctor, t, hdid, hdate, hpresence.1,
                hpresence.2, hdoc, by simp [hpat], ht, hconf, h⟩

/-- A freshly constructed booking document never validates: its required
`appointmentId` is still unset when Mongoose validates (the minting hook
only runs afterwards). -/
theorem validateAppointment_builtAppointment (db : DB) (uid did : Nat) (t : Int)
    (req : BookRequest) (doc : Doctor) :
    validateAppointment (builtAppointment db uid did t req doc) = false := by
  simp [validateAppointment, builtAppointment]

/-- Every call to the booking handler answers an error: each precondition
failure returns early, and the final save is always rejected by schema
validation (required `appointmentId` unset at validation time), so no
booking ever commits anything. -/
theorem createAppointment_always_error (db : DB) (uid : Nat) (req : BookRequest) :
    ∃ e, createAppointment db uid req = .error e := by
  unfold createAppointment
  split
  · split
    · exact ⟨_, rfl⟩
    · split
      · exact ⟨_, rfl⟩
      · split
        · exact ⟨_, rfl⟩
        · split
          · exact ⟨_, rfl⟩
          · split
            · exact ⟨_, rfl⟩
            · simp [saveNew, validateAppointment_builtAppointment]
  · exact ⟨_, rfl⟩

theorem updateAppointmentStatus_ok {db db1 : DB} {role : String}
    {pid oidA : Nat} {st : String} {nt : Option String} {b : Appointment}
    (h : updateAppointmentStatus db role pid oidA st nt = .ok (db1, b)) :
    ∃ appointment, findAppointment db oidA = some appointment ∧
      allowedUpdateStatuses.contains st = true ∧
      ¬(role = "patient" ∧ appointment.patient ≠ pid) ∧
      ¬(role = "doctor" ∧ appointment.doctor ≠ pid) ∧
      saveExisting db (updatedDoc appointment st nt) = .ok (db1, b) := by
  unfold updateAppointmentStatus at h
  split at h
  · simp at h
  · rename_i hallowed
    simp only [Bool.not_eq_true', Bool.not_eq_false] at hallowed
    split at h
    · simp at h
    · rename_i appointment happt
      split at h
      · simp at h
      · rename_i hpatOk
        split at h
        · simp at h
        · rename_i hdocOk
          exact ⟨appointment, happt, hallowed,
            roleGuard_not hpatOk, roleGuard_not hdocOk, h⟩

theorem updatedDoc_oid (a : Appointment) (st : String) (nt : Option String) :
    (updatedDoc a st nt).oid = a.oid := by
  unfold updatedDoc
  split <;> rfl

theorem updatedDoc_status (a : Appointment) (st : String) (nt : Option String) :
    (updatedDoc a st nt).status = st := by
  unfold updatedDoc
  split <;> rfl

theorem updatedDoc_notes (a : Appointment) (st : String) (nt : Option String) :
    (updatedDoc a st nt).notes = if jsTruthyStr nt then nt else a.notes := by
  unfold updatedDoc
  split <;> simp_all

theorem updatedDoc_patient (a : Appointment) (st : String) (nt : Option String) :
    (updatedDoc a st nt).patient = a.patient := by
  unfold updatedDoc
  split <;> rfl

theorem updatedDoc_doctor (a : Appointment) (st : String) (nt : Option String) :
    (updatedDoc a st nt).doctor = a.doctor := by
  unfold updatedDoc
  split <;> rfl

theorem updatedDoc_appointmentDate (a : Appointment) (st : String) (nt : Option String) :
    (updatedDoc a st nt).appointmentDate = a.appointmentDate := by
  unfold updatedDoc
  split <;> rfl

theorem updatedDoc_appointmentTime (a : Appointment) (st : String) (nt : Option String) :
    (updatedDoc a st nt).appointmentTime = a.appointmentTime := by
  unfold updatedDoc
  split <;> rfl

theorem updatedDoc_duration (a : Appointment) (st : String) (nt : Option String) :
    (updatedDoc a st nt).duration = a.duration := by
  unfold updatedDoc
  split <;> rfl

theorem updatedDoc_type (a : Appointment) (st : String) (nt : Option String) :
    (updatedDoc a st nt).type = a.type := by
  unfold updatedDoc
  split <;> rfl

theorem updatedDoc_reasonForVisit (a : Appointment) (st : String) (nt : Option String) :
    (updatedDoc a st nt).reasonForVisit = a.reasonForVisit := by
  unfold updatedDoc
  split <;> rfl

theorem updatedDoc_symptoms (a : Appointment) (st : String) (nt : Option String) :
    (updatedDoc a st nt).symptoms = a.symptoms := by
  unfold updatedDoc
  split <;> rfl

theorem updatedDoc_appointmentId (a : Appointment) (st : String) (nt : Option String) :
    (updatedDoc a st nt).appointmentId = a.appointmentId := by
  unfold updatedDoc
  split <;> rfl

theorem updatedDoc_fees (a : Appointment) (st : String) (nt : Option String) :
    (updatedDoc a st nt).fees = a.fees := by
  unfold updatedDoc
  split <;> rfl

/-- Any booking whose preconditions resolve and whose conflict query finds
a document answers 409 and performs no write. -/
theorem createAppointment_conflict_found {db : DB} {uid : Nat} {req : BookRequest}
    {doctorId : Nat} {dateMs t : Int} {doctor : Doctor} {c : Appointment}
    (hdid : req.doctorId = some doctorId) (hdate : req.appointmentDate = some dateMs)
    (htime : req.appointmentTime ≠ "") (hreason : req.reasonForVisit ≠ "")
    (hdoc : findDoctor db doctorId = some doctor)
    (hpat : (findPatient db uid).isSome = true)
    (ht : combineInstant dateMs req.appointmentTime = some t)
    (hc : db.appointments.find? (isConflicting doctorId t) = some c) :
    createAppointment db uid req = .error ⟨409, "Doctor is not available at this time"⟩ := by
  obtain ⟨p, hp⟩ := Option.isSome_iff_exists.mp hpat
  simp [createAppointment, hdid, hdate, htime, hreason, hdoc, hp, ht, hc]

/-- C1: the conflict half behaves as claimed — with `apt1` stored at
10:00, booking the same doctor at 10:20 answers 409 before any write —
but the no-conflict half does not: on the empty store, where the conflict
query finds nothing, the same valid booking is not created; its save is
rejected by schema validation (the required `appointmentId` is minted
only in the post-validation pre-save hook) and the handler answers
400 Validation failed, persisting nothing. -/
theorem booking_conflict_check_then_rejected_create :
    createAppointment dbWithAppt 2 (reqAt "10:20" "sore throat") =
      .error ⟨409, "Doctor is not available at this time"⟩ ∧
    baseDB.appointments = [] ∧
    createAppointment baseDB 2 (reqAt "10:00" "bad headache") =
      .error ⟨400, "Validation failed"⟩ :=
  ⟨rfl, rfl, rfl⟩

/-- C10: the ±30-minute conflict window is inclusive at both ends: an
existing non-cancelled, non-no-show appointment for the same doctor lying
exactly 30 minutes before or after the requested instant already makes
the booking fail with 409. -/
theorem conflict_window_inclusive_boundaries (db : DB) (uid : Nat) (req : BookRequest)
    (doctorId : Nat) (dateMs t : Int) (doctor : Doctor)
    (hdid : req.doctorId = some doctorId) (hdate : req.appointmentDate = some dateMs)
    (htime : req.appointmentTime ≠ "") (hreason : req.reasonForVisit ≠ "")
    (hdoc : findDoctor db doctorId = some doctor)
    (hpat : (findPatient db uid).isSome = true)
    (ht : combineInstant dateMs req.appointmentTime = some t)
    (hexact : ∃ a ∈ db.appointments, a.doctor = doctorId ∧
      (a.appointmentDate = t - 1800000 ∨ a.appointmentDate = t + 1800000) ∧
      a.status ≠ "cancelled" ∧ a.status ≠ "no-show") :
    createAppointment db uid req =
      .error ⟨409, "Doctor is not available at this time"⟩ := by
  obtain ⟨a, ham, hd, hedge, hs1, hs2⟩ := hexact
  have hconf : isConflicting doctorId t a = true := by
    have h1 : t - 1800000 ≤ a.appointmentDate := by omega
    have h2 : a.appointmentDate ≤ t + 1800000 := by omega
    simp [isConflicting, hd, h1, h2, hs1, hs2]
  obtain ⟨c, hc⟩ := Option.isSome_iff_exists.mp
    (List.find?_isSome.mpr ⟨a, ham, hconf⟩)
  exact createAppointment_conflict_found hdid hdate htime hreason hdoc hpat ht hc

/-- C10 witness: with `apt1` stored at 10:00 (instant 36000000), booking
at 10:30 (instant 37800000, exactly 30 minutes later) answers 409. -/
theorem conflict_window_inclusive_boundaries_witness :
    createAppointment dbWithAppt 2 (reqAt "10:30" "sore throat") =
      .error ⟨409, "Doctor is not available at this time"⟩ :=
  conflict_window_inclusive_boundaries dbWithAppt 2 (reqAt "10:30" "sore throat")
    1 0 37800000 docA rfl rfl (by decide) (by decide) rfl rfl rfl
    ⟨apt1, by decide, by decide, Or.inl (by decide), by decide, by decide⟩

/-- C5: a booking whose doctor reference does not resolve fails with the
404 NotFound response before any write, and the booking operation never
partially commits: every booking call answers an error and so leaves the
appointment store unchanged (in the current code no booking commits
anything at all — the save is rejected by validation — so in particular
no precondition failure ever leaves a partial write). -/
theorem booking_no_partial_commit
    (dbA : DB) (uidA : Nat) (reqA : BookRequest) (doctorIdA : Nat) (dateMsA : Int)
    (dbB : DB) (uidB : Nat) (reqB : BookRequest)
    (hdid : reqA.doctorId = some doctorIdA)
    (hdate : reqA.appointmentDate = some dateMsA)
    (htime : reqA.appointmentTime ≠ "") (hreason : reqA.reasonForVisit ≠ "")
    (hnodoc : findDoctor dbA doctorIdA = none) :
    createAppointment dbA uidA reqA = .error ⟨404, "Doctor not found"⟩ ∧
    ∃ e, createAppointment dbB uidB reqB = .error e :=
  ⟨by simp [createAppointment, hdid, hdate, htime, hreason, hnodoc],
    createAppointment_always_error dbB uidB reqB⟩

/-- C5 witness: booking doctor id 77 (absent) against `baseDB` answers
404, and a fully valid booking against the same store also answers an
error, committing nothing. -/
theorem booking_no_partial_commit_witness :
    createAppointment baseDB 2 reqDoc77 = .error ⟨404, "Doctor not found"⟩ ∧
    ∃ e, createAppointment baseDB 2 (reqAt "10:00" "bad headache") = .error e := by
  have h := booking_no_partial_commit baseDB 2 reqDoc77 77 0
    baseDB 2 (reqAt "10:00" "bad headache")
    rfl rfl (by decide) (by decide) rfl
  exact ⟨h.1, h.2⟩

/-- C2: every record persisted by the status-update operation satisfies
`totalAmount = consultationFee + additionalCharges` (the pre-save hook
re-derives it after validation, before the write) and the update touches
no other stored record; and the booking operation never persists any
record at all (its save is rejected by validation before the minting hook
can run) — so every record a persisting operation stores satisfies the
invariant. -/
theorem fee_total_invariant_after_persist
    (db2 db2' : DB) (role : String) (pid oidA : Nat) (st : String)
    (nt : Option String) (b : Appointment)
    (db : DB) (uid : Nat) (req : BookRequest)
    (hu : updateAppointmentStatus db2 role pid oidA st nt = .ok (db2', b)) :
    (b.fees.totalAmount = b.fees.consultationFee + b.fees.additionalCharges ∧
      b ∈ db2'.appointments ∧
      ∀ x ∈ db2'.appointments, x ∈ db2.appointments ∨ x = b) ∧
    ∀ db' a, createAppointment db uid req ≠ .ok (db', a) := by
  obtain ⟨appt, happt, _, _, _, hsaveE⟩ := updateAppointmentStatus_ok hu
  obtain ⟨hb1, _, hbapps, _, _, _⟩ := saveExisting_ok hsaveE
  refine ⟨⟨?_, ?_, ?_⟩, ?_⟩
  · rw [hb1, preSave_totalAmount]
  · rw [hbapps]
    have hmem : appt ∈ db2.appointments := by
      unfold findAppointment at happt
      exact List.mem_of_find?_eq_some happt
    have hoid : appt.oid = b.oid := by
      rw [hb1, preSave_oid, updatedDoc_oid]
    exact List.mem_map.mpr ⟨appt, hmem, by simp [hoid]⟩
  · intro x hx
    rw [hbapps] at hx
    obtain ⟨y, hy, hxy⟩ := List.mem_map.mp hx
    by_cases hcase : y.oid = b.oid
    · simp [hcase] at hxy
      exact Or.inr hxy.symm
    · simp [hcase] at hxy
      exact Or.inl (hxy ▸ hy)
  · intro db' a hcontra
    obtain ⟨e, he⟩ := createAppointment_always_error db uid req
    rw [hcontra] at he
    exact Except.noConfusion he

/-- C2 witness: the record re-persisted by the confirm update satisfies
the fee-total invariant, and the 10:00 booking persists nothing. -/
theorem fee_total_invariant_after_persist_witness :
    apt1Confirmed.fees.totalAmount =
      apt1Confirmed.fees.consultationFee + apt1Confirmed.fees.additionalCharges ∧
    createAppointment baseDB 2 (reqAt "10:00" "bad headache") ≠
      .ok (dbWithAppt, apt1) := by
  have h := fee_total_invariant_after_persist dbWithAppt dbWithApptConfirmed
    "patient" 2 100 "confirmed" none apt1Confirmed baseDB 2
    (reqAt "10:00" "bad headache") rfl
  exact ⟨h.1.1, h.2 dbWithAppt apt1⟩

/-- C3 counterexample: the appointment belongs to patient 2 and doctor 1,
yet the `admin`-role identity 99 — neither of them — both updates and
reads it without a Forbidden answer, because the ownership check only
fires for the `patient` and `doctor` roles. -/
theorem ownership_guard_admin_bypass_counterexample :
    apt1.patient ≠ 99 ∧ apt1.doctor ≠ 99 ∧
    findAppointment dbWithAppt 100 = some apt1 ∧
    (updateAppointmentStatus dbWithAppt "admin" 99 100 "cancelled" none).isOk = true ∧
    (getAppointmentById dbWithAppt "admin" 99 100).isOk = true :=
  ⟨by decide, by decide, rfl, rfl, rfl⟩

/-- C3 (amended): `updateStatus` and `getById` fail with the 403 Forbidden
response for every `patient`-role identity that is not the appointment's
patient and every `doctor`-role identity that is not its doctor (identities
acting under any other role are not blocked by the ownership check). -/
theorem ownership_guard_role_scoped (db : DB) (role : String) (uid oidA : Nat)
    (st : String) (nt : Option String) (a : Appointment)
    (hfind : findAppointment db oidA = some a)
    (hst : allowedUpdateStatuses.contains st = true)
    (hmismatch : (role = "patient" ∧ a.patient ≠ uid) ∨
      (role = "doctor" ∧ a.doctor ≠ uid)) :
    updateAppointmentStatus db role uid oidA st nt =
      .error ⟨403, "Not authorized to update this appointment"⟩ ∧
    getAppointmentById db role uid oidA =
      .error ⟨403, "Not authorized to view this appointment"⟩ := by
  have hst' : st ∈ allowedUpdateStatuses := by simpa using hst
  rcases hmismatch with ⟨hrole, hne⟩ | ⟨hrole, hne⟩
  · subst hrole
    constructor
    · simp [updateAppointmentStatus, hst', hfind, beq_eq_false_iff_ne.mpr hne]
    · simp [getAppointmentById, hfind, beq_eq_false_iff_ne.mpr hne]
  · subst hrole
    constructor
    · simp [updateAppointmentStatus, hst', hfind, beq_eq_false_iff_ne.mpr hne]
    · simp [getAppointmentById, hfind, beq_eq_false_iff_ne.mpr hne]

/-- C3 witness: the `patient`-role identity 3 (not the stored patient 2)
gets 403 from both operations on `apt1`. -/
theorem ownership_guard_role_scoped_witness :
    updateAppointmentStatus dbWithAppt "patient" 3 100 "confirmed" none =
      .error ⟨403, "Not authorized to update this appointment"⟩ ∧
    getAppointmentById dbWithAppt "patient" 3 100 =
      .error ⟨403, "Not authorized to view this appointment"⟩ :=
  ownership_guard_role_scoped dbWithAppt "patient" 3 100 "confirmed" none apt1
    rfl (by decide) (Or.inl ⟨rfl, by decide⟩)

/-- One status update never leaves a record in state `'scheduled'` unless
that record was already stored unchanged: the accepted target statuses
exclude `'scheduled'`. -/
theorem applyUpdate_scheduled_preserved (db : DB) (op : UpdateOp) :
    ∀ x ∈ (applyUpdate db op).appointments, x.status = "scheduled" →
      x ∈ db.appointments := by
  intro x hx hs
  unfold applyUpdate at hx
  split at hx
  · rename_i db1 b heq
    obtain ⟨appt, happt, hallowed, _, _, hsaveE⟩ := updateAppointmentStatus_ok heq
    obtain ⟨hb1, _, hbapps, _, _, _⟩ := saveExisting_ok hsaveE
    rw [hbapps] at hx
    obtain ⟨y, hy, hxy⟩ := List.mem_map.mp hx
    by_cases hcase : y.oid = b.oid
    · simp only [if_pos hcase] at hxy
      subst hxy
      rw [hb1, preSave_status, updatedDoc_status] at hs
      rw [hs] at hallowed
      exact absurd hallowed (by decide)
    · simp only [if_neg hcase] at hxy
      exact hxy ▸ hy
  · exact hx

/-- Over any sequence of status updates, a record whose status reads
`'scheduled'` afterwards is one the sequence never successfully touched. -/
theorem applyUpdates_scheduled_preserved : ∀ (ops : List UpdateOp) (db : DB),
    ∀ x ∈ (applyUpdates db ops).appointments, x.status = "scheduled" →
      x ∈ db.appointments := by
  intro ops
  induction ops with
  | nil =>
    intro db x hx _
    simpa [applyUpdates] using hx
  | cons op ops ih =>
    intro db x hx hs
    have hx1 : x ∈ (applyUpdates (applyUpdate db op) ops).appointments := by
      simpa [applyUpdates] using hx
    exact applyUpdate_scheduled_preserved db op x
      (ih (applyUpdate db op) x hx1 hs) hs

/-- C4 (amended): across every sequence of status updates the status never
returns to `'scheduled'` (a record reading `'scheduled'` afterwards is
stored exactly as it was before the sequence); terminal states are not
enforced, however: the update operation accepts any allowed target status
regardless of the record's current status, including out of `'completed'`,
`'cancelled'` and `'no-show'`. -/
theorem status_never_returns_to_scheduled (db : DB) (ops : List UpdateOp)
    (dbU : DB) (oidA : Nat) (st : String) (nt : Option String) (aU : Appointment)
    (hfind : findAppointment dbU oidA = some aU)
    (hst : allowedUpdateStatuses.contains st = true)
    (hval : validateAppointment (updatedDoc aU st nt) = true) :
    (∀ x ∈ (applyUpdates db ops).appointments, x.status = "scheduled" →
      x ∈ db.appointments) ∧
    updateAppointmentStatus dbU "patient" aU.patient oidA st nt =
      .ok ({ dbU with appointments := dbU.appointments.map fun b =>
              if b.oid = (preSave dbU.appointments.length (updatedDoc aU st nt)).oid
              then preSave dbU.appointments.length (updatedDoc aU st nt) else b },
           preSave dbU.appointments.length (updatedDoc aU st nt)) := by
  have hst' : st ∈ allowedUpdateStatuses := by simpa using hst
  refine ⟨applyUpdates_scheduled_preserved ops db, ?_⟩
  simp [updateAppointmentStatus, hst', hfind, saveExisting, hval]

/-- C4 counterexample: `'cancelled'` is terminal, yet updating the
cancelled appointment to `'confirmed'` succeeds and stores the new
status — the code never inspects the current status. -/
theorem terminal_state_not_absorbing_counterexample :
    apt1Cancelled.status = "cancelled" ∧
    (updateAppointmentStatus dbCancelled "patient" 2 100 "confirmed" none).isOk = true ∧
    ((updateAppointmentStatus dbCancelled "patient" 2 100 "confirmed" none).toOption.map
      fun p => p.2.status) = some "confirmed" :=
  ⟨rfl, rfl, rfl⟩

/-- C4 witness: instantiated on the cancelled-appointment store, the
update to `'confirmed'` by the owning patient succeeds. -/
theorem status_never_returns_to_scheduled_witness :
    (updateAppointmentStatus dbCancelled "patient" 2 100 "confirmed" none).isOk = true := by
  have h := status_never_returns_to_scheduled dbWithAppt [] dbCancelled 100
    "confirmed" none apt1Cancelled rfl (by decide) (by decide)
  rw [show (2 : Nat) = apt1Cancelled.patient from rfl, h.2]
  rfl

/-- C6: a booking with an absent required field, a time failing the 24h
`HH:MM` shape, or a reason/duration outside the documented ranges fails
with a 400 error and creates no appointment.  Absence is caught by the
controller presence check; a malformed time yields an Invalid Date whose
cast in the conflict query fails (400); and any booking that reaches
`save()` — in particular one whose trimmed reason or duration is out of
range — is rejected by schema validation with 400 Validation failed,
since the required `appointmentId` is not yet minted at validation time. -/
theorem booking_validation_failures
    (dbA : DB) (uidA : Nat) (reqA : BookRequest)
    (dbB : DB) (uidB : Nat) (reqB : BookRequest) (doctorIdB : Nat) (dateMsB : Int)
    (doctorB : Doctor)
    (dbC : DB) (uidC : Nat) (reqC : BookRequest) (doctorIdC : Nat)
    (dateMsC tC : Int) (doctorC : Doctor)
    (hA : reqA.doctorId = none ∨ reqA.appointmentDate = none ∨
      reqA.appointmentTime = "" ∨ reqA.reasonForVisit = "")
    (hB1 : reqB.doctorId = some doctorIdB) (hB2 : reqB.appointmentDate = some dateMsB)
    (hB3 : reqB.appointmentTime ≠ "") (hB4 : reqB.reasonForVisit ≠ "")
    (hB5 : findDoctor dbB doctorIdB = some doctorB)
    (hB6 : (findPatient dbB uidB).isSome = true)
    (hB7 : isValidTimeHHMM reqB.appointmentTime = false)
    (hC1 : reqC.doctorId = some doctorIdC) (hC2 : reqC.appointmentDate = some dateMsC)
    (hC3 : reqC.appointmentTime ≠ "") (hC4 : reqC.reasonForVisit ≠ "")
    (hC5 : findDoctor dbC doctorIdC = some doctorC)
    (hC6 : (findPatient dbC uidC).isSome = true)
    (hC7 : combineInstant dateMsC reqC.appointmentTime = some tC)
    (hC8 : dbC.appointments.find? (isConflicting doctorIdC tC) = none)
    (_hC9 : (trimStr reqC.reasonForVisit).length < 5 ∨
      500 < (trimStr reqC.reasonForVisit).length ∨
      reqC.duration < 15 ∨ 180 < reqC.duration) :
    createAppointment dbA uidA reqA =
      .error ⟨400, "All required fields must be provided"⟩ ∧
    createAppointment dbB uidB reqB = .error ⟨400, "Invalid appointmentDate"⟩ ∧
    createAppointment dbC uidC reqC = .error ⟨400, "Validation failed"⟩ := by
  refine ⟨?_, ?_, ?_⟩
  · rcases hA with h | h | h | h
    · cases hd : reqA.appointmentDate <;> simp [createAppointment, h, hd]
    · cases hd : reqA.doctorId <;> simp [createAppointment, h, hd]
    · cases hd : reqA.doctorId <;> cases he : reqA.appointmentDate <;>
        simp [createAppointment, h, hd, he]
    · cases hd : reqA.doctorId <;> cases he : reqA.appointmentDate <;>
        simp [createAppointment, h, hd, he]
  · have hcomb : combineInstant dateMsB reqB.appointmentTime = none := by
      simp [combineInstant, hB7]
    obtain ⟨p, hp⟩ := Option.isSome_iff_exists.mp hB6
    simp [createAppointment, hB1, hB2, hB3, hB4, hB5, hp, hcomb]
  · obtain ⟨p, hp⟩ := Option.isSome_iff_exists.mp hC6
    simp [createAppointment, hC1, hC2, hC3, hC4, hC5, hp, hC7, hC8, saveNew,
      validateAppointment_builtAppointment]

/-- C6 witness: a request missing its doctor id answers the presence 400;
the time `"25:99"` answers the date-cast 400; the 3-character reason
`"abc"` answers 400 Validation failed — none creates a record. -/
theorem booking_validation_failures_witness :
    createAppointment baseDB 2 reqNoDoctor =
      .error ⟨400, "All required fields must be provided"⟩ ∧
    createAppointment baseDB 2 (reqAt "25:99" "bad headache") =
      .error ⟨400, "Invalid appointmentDate"⟩ ∧
    createAppointment baseDB 2 (reqAt "15:00" "abc") =
      .error ⟨400, "Validation failed"⟩ :=
  booking_validation_failures baseDB 2 reqNoDoctor
    baseDB 2 (reqAt "25:99" "bad headache") 1 0 docA
    baseDB 2 (reqAt "15:00" "abc") 1 0 54000000 docA
    (Or.inl rfl) rfl rfl (by decide) (by decide) rfl rfl (by decide)
    rfl rfl (by decide) (by decide) rfl rfl rfl rfl (Or.inl (by decide))

/-- C7: evaluation at the failing input.  A fully valid, conflict-free
booking — which per the claim should persist with the doctor fee, status
`'scheduled'` and a fresh sequential id — is instead answered with 400
Validation failed and persists nothing: the constructed document's
required `appointmentId` is still unset when Mongoose validates (it is
minted only in the post-validation pre-save hook), so no booking can ever
reach the claimed success state. -/
theorem booking_success_unreachable :
    createAppointment baseDB 2 (reqAt "10:00" "bad headache") =
      .error ⟨400, "Validation failed"⟩ ∧
    baseDB.appointments = [] ∧
    (builtAppointment baseDB 2 1 36000000 (reqAt "10:00" "bad headache")
      docA).appointmentId = none ∧
    validateAppointment
      (builtAppointment baseDB 2 1 36000000 (reqAt "10:00" "bad headache") docA) =
      false :=
  ⟨rfl, rfl, rfl, rfl⟩

/-- C8 counterexample: notes are supplied (the empty string), the update
succeeds, yet the stored notes remain the previous `"old note"` — the code
guards the overwrite with JS truthiness (`if (notes)`), not with presence. -/
theorem notes_empty_string_counterexample :
    ((updateAppointmentStatus dbNoted "patient" 2 100 "confirmed" (some "")).toOption.map
      fun p => p.2.notes) = some (some "old note") ∧
    ("old note" : String) ≠ "" :=
  ⟨rfl, by decide⟩

/-- C8 (amended): an authorized, successful status update overwrites the
status with the new status; the stored notes are replaced by the supplied
notes exactly when notes are supplied and non-empty (JS-truthy); every
other field — patient, doctor, appointmentDate, appointmentTime, duration,
reasonForVisit, symptoms, type, consultationFee, additionalCharges — is
unchanged, apart from re-deriving `totalAmount`; and the store changes
only at the updated record. -/
theorem update_status_frame (db db' : DB) (role : String) (pid oidA : Nat)
    (st : String) (nt : Option String) (a b : Appointment)
    (hfind : findAppointment db oidA = some a)
    (hok : updateAppointmentStatus db role pid oidA st nt = .ok (db', b)) :
    b.status = st ∧
    b.notes = (if jsTruthyStr nt then nt else a.notes) ∧
    b.patient = a.patient ∧ b.doctor = a.doctor ∧
    b.appointmentDate = a.appointmentDate ∧
    b.appointmentTime = a.appointmentTime ∧
    b.duration = a.duration ∧ b.reasonForVisit = a.reasonForVisit ∧
    b.symptoms = a.symptoms ∧ b.type = a.type ∧
    b.fees.consultationFee = a.fees.consultationFee ∧
    b.fees.additionalCharges = a.fees.additionalCharges ∧
    b.fees.totalAmount = a.fees.consultationFee + a.fees.additionalCharges ∧
    db'.appointments = db.appointments.map fun x => if x.oid = a.oid then b else x := by
  obtain ⟨appt, happt, _, _, _, hsaveE⟩ := updateAppointmentStatus_ok hok
  have hae : appt = a := by
    rw [hfind] at happt
    exact (Option.some_inj.mp happt).symm
  subst hae
  obtain ⟨hb1, _, hbapps, _, _, _⟩ := saveExisting_ok hsaveE
  have hcf : b.fees.consultationFee = appt.fees.consultationFee := by
    rw [hb1, preSave_consultationFee, updatedDoc_fees]
  have hac : b.fees.additionalCharges = appt.fees.additionalCharges := by
    rw [hb1, preSave_additionalCharges, updatedDoc_fees]
  refine ⟨?_, ?_, ?_, ?_, ?_, ?_, ?_, ?_, ?_, ?_, hcf, hac, ?_, ?_⟩
  · rw [hb1, preSave_status, updatedDoc_status]
  · rw [hb1, preSave_notes, updatedDoc_notes]
  · rw [hb1, preSave_patient, updatedDoc_patient]
  · rw [hb1, preSave_doctor, updatedDoc_doctor]
  · rw [hb1, preSave_appointmentDate, updatedDoc_appointmentDate]
  · rw [hb1, preSave_appointmentTime, updatedDoc_appointmentTime]
  · rw [hb1, preSave_duration, updatedDoc_duration]
  · rw [hb1, preSave_reasonForVisit, updatedDoc_reasonForVisit]
  · rw [hb1, preSave_symptoms, updatedDoc_symptoms]
  · rw [hb1, preSave_type, updatedDoc_type]
  · rw [hb1, preSave_totalAmount, preSave_consultationFee,
      preSave_additionalCharges, updatedDoc_fees]
  · have hoid : b.oid = appt.oid := by
      rw [hb1, preSave_oid, updatedDoc_oid]
    rw [hbapps, hoid]

/-- C8 witness: the confirm update that supplies notes `"new"` stores
status `'confirmed'` and notes `"new"` and leaves the duration, fees and
reason unchanged. -/
theorem update_status_frame_witness :
    apt1NotedUpd.status = "confirmed" ∧
    apt1NotedUpd.notes = some "new" ∧
    apt1NotedUpd.duration = apt1Noted.duration ∧
    apt1NotedUpd.reasonForVisit = apt1Noted.reasonForVisit ∧
    apt1NotedUpd.fees.consultationFee = apt1Noted.fees.consultationFee := by
  have h := update_status_frame dbNoted dbNotedUpd "patient" 2 100 "confirmed"
    (some "new") apt1Noted apt1NotedUpd rfl rfl
  refine ⟨h.1, ?_, h.2.2.2.2.2.2.1, h.2.2.2.2.2.2.2.1, h.2.2.2.2.2.2.2.2.2.2.1⟩
  rw [h.2.1]
  rfl

/-- `ceilDiv` is the ceiling of `total / limit` for a positive limit:
the page count covers all records and wastes less than one page. -/
theorem ceilDiv_bounds (t l : Nat) (hl : 1 ≤ l) :
    t ≤ ceilDiv t l * l ∧ ceilDiv t l * l < t + l := by
  unfold ceilDiv
  rw [Nat.mul_comm]
  have key := Nat.div_add_mod (t + l - 1) l
  have hm : (t + l - 1) % l < l := Nat.mod_lt _ (by omega)
  set p := l * ((t + l - 1) / l) with hp
  omega

/-- A page (`skip`/`limit`) is a sublist of the sorted result set. -/
theorem paged_sublist {α : Type} (xs : List α) (n m : Nat) :
    ((xs.drop n).take m).Sublist xs :=
  (List.take_sublist _ _).trans (List.drop_sublist _ _)

/-- C9 (amended): the patient listing returns the patient's appointments
matching the optional status filter, sorted descending by instant, and
ignores any supplied date parameter; the doctor listing returns the
doctor's appointments matching the optional status and same-day date
filters, sorted ascending by instant; both report the total count of
matching records and a page count equal to `ceil(total / limit)`. -/
theorem listing_sort_filter_pagination (db : DB) (pid did : Nat) (q qd : ListQuery)
    (hlim : 1 ≤ q.limit) (hlimd : 1 ≤ qd.limit) :
    ((getPatientAppointments db pid q).1.Pairwise fun a b =>
      b.appointmentDate ≤ a.appointmentDate) ∧
    (∀ x ∈ (getPatientAppointments db pid q).1, x ∈ db.appointments ∧
      x.patient = pid ∧ ∀ s, q.status = some s → x.status = s) ∧
    getPatientAppointments db pid q =
      getPatientAppointments db pid { q with date := none } ∧
    (getPatientAppointments db pid q).2.total =
      (db.appointments.filter (patientFilter pid q.status)).length ∧
    (getPatientAppointments db pid q).2.total ≤
      (getPatientAppointments db pid q).2.pages * q.limit ∧
    (getPatientAppointments db pid q).2.pages * q.limit <
      (getPatientAppointments db pid q).2.total + q.limit ∧
    ((getDoctorAppointments db did qd).1.Pairwise fun a b =>
      a.appointmentDate ≤ b.appointmentDate) ∧
    (∀ x ∈ (getDoctorAppointments db did qd).1, x ∈ db.appointments ∧
      x.doctor = did ∧ (∀ s, qd.status = some s → x.status = s) ∧
      ∀ d, qd.date = some d →
        d ≤ x.appointmentDate ∧ x.appointmentDate ≤ d + 86399999) ∧
    (getDoctorAppointments db did qd).2.total =
      (db.appointments.filter (doctorFilter did qd.status qd.date)).length ∧
    (getDoctorAppointments db did qd).2.total ≤
      (getDoctorAppointments db did qd).2.pages * qd.limit ∧
    (getDoctorAppointments db did qd).2.pages * qd.limit <
      (getDoctorAppointments db did qd).2.total + qd.limit := by
  have hpsorted := List.sorted_insertionSort patientSortR
    (db.appointments.filter (patientFilter pid q.status))
  have hdsorted := List.sorted_insertionSort doctorSortR
    (db.appointments.filter (doctorFilter did qd.status qd.date))
  have hpb := ceilDiv_bounds
    (db.appointments.filter (patientFilter pid q.status)).length q.limit hlim
  have hdb := ceilDiv_bounds
    (db.appointments.filter (doctorFilter did qd.status qd.date)).length qd.limit hlimd
  refine ⟨?_, ?_, rfl, rfl, hpb.1, hpb.2, ?_, ?_, rfl, hdb.1, hdb.2⟩
  · exact ((hpsorted.sublist (paged_sublist _ _ _)).imp fun h => h)
  · intro x hx
    have hx1 : x ∈ (db.appointments.filter (patientFilter pid q.status)).insertionSort
        patientSortR := (paged_sublist _ _ _).subset hx
    have hx2 := List.mem_filter.mp ((List.mem_insertionSort _).mp hx1)
    refine ⟨hx2.1, ?_, ?_⟩
    · have := hx2.2
      simp only [patientFilter, Bool.and_eq_true, decide_eq_true_eq] at this
      exact this.1
    · intro s hs
      have := hx2.2
      simp only [patientFilter, hs, Bool.and_eq_true, decide_eq_true_eq] at this
      exact this.2
  · refine (hdsorted.sublist (paged_sublist _ _ _)).imp fun h => ?_
    rcases h with h | ⟨he, _⟩
    · exact le_of_lt h
    · exact le_of_eq he
  · intro x hx
    have hx1 : x ∈ (db.appointments.filter (doctorFilter did qd.status qd.date)).insertionSort
        doctorSortR := (paged_sublist _ _ _).subset hx
    have hx2 := List.mem_filter.mp ((List.mem_insertionSort _).mp hx1)
    refine ⟨hx2.1, ?_, ?_, ?_⟩
    · have := hx2.2
      simp only [doctorFilter, Bool.and_eq_true, decide_eq_true_eq] at this
      exact this.1.1
    · intro s hs
      have := hx2.2
      simp only [doctorFilter, hs, Bool.and_eq_true, decide_eq_true_eq] at this
      exact this.1.2
    · intro d hd
      have := hx2.2
      simp only [doctorFilter, hd, Bool.and_eq_true, decide_eq_true_eq] at this
      exact this.2

/-- C9 witness: on the one-appointment store, the patient listing is
unchanged by a date parameter, and both listings report one matching
record. -/
theorem listing_sort_filter_pagination_witness :
    getPatientAppointments dbWithAppt 2 ⟨none, some 999999999999, 1, 10⟩ =
      getPatientAppointments dbWithAppt 2 ⟨none, none, 1, 10⟩ ∧
    (getPatientAppointments dbWithAppt 2 ⟨none, some 999999999999, 1, 10⟩).2.total = 1 ∧
    (getDoctorAppointments dbWithAppt 1 ⟨some "scheduled", some 0, 1, 10⟩).2.total = 1 := by
  have h := listing_sort_filter_pagination dbWithAppt 2 1
    ⟨none, some 999999999999, 1, 10⟩ ⟨some "scheduled", some 0, 1, 10⟩
    (by decide) (by decide)
  refine ⟨h.2.2.1, ?_, ?_⟩
  · rw [h.2.2.2.1]
    decide
  · rw [h.2.2.2.2.2.2.2.2.1]
    decide

/-- C9 counterexample: a date parameter is supplied to the patient
listing, the stored appointment lies outside that day, and it is still
returned — the patient listing applies no date filter. -/
theorem patient_listing_ignores_date_counterexample :
    (getPatientAppointments dbWithAppt 2 ⟨none, some 999999999999, 1, 10⟩).1 = [apt1] ∧
    ¬(999999999999 ≤ apt1.appointmentDate ∧
      apt1.appointmentDate ≤ 999999999999 + 86399999) :=
  ⟨by decide, by decide⟩

end DaktariHub
